import Mathlib

/-!
Verification of the Truth-Stamp web client's authenticated API access layer
(token store + dispatcher `apiFetch`), shallowly embedded from the source.

JS objects holding HTTP headers are embedded as entry lists
`List (String × String)`; property access reads the LAST binding of a key
(object-literal semantics where later keys overwrite earlier ones), and the
spread `\x7b...a, ...b\x7d` is entry concatenation, so that lookup in the spread is
"b's value if present, else a's" — exactly the JS semantics.
-/

/-- Entry list of a JS object holding header names and values. -/
abbrev HeaderMap := List (String × String)

/-- Left-biased choice on optional values. -/
def optOr (a b : Option String) : Option String :=
  match a with
  | some v => some v
  | none => b

/-- Property access on a JS object given by its entry list: the last binding
of the key wins, as in a JS object literal. -/
def jsGet (m : HeaderMap) (k : String) : Option String :=
  List.lookup k m.reverse

/-- The JS object spread `\x7b...a, ...b\x7d`: entries of `a` then entries of `b`,
so under `jsGet` the entries of `b` are layered on top of those of `a`. -/
def objSpread (a b : HeaderMap) : HeaderMap := a ++ b

/-- Modelled from the spec: the token store module (`src/lib/auth.ts`, imported
by the dispatcher as `getToken`/`setToken`/`clearToken`/`authHeaders`) is not
among the provided sources. Spec §4.1: the store holds at most one credential,
so its state is an optional string. -/
abbrev TokenStore := Option String

/-- Modelled from the spec: `get() -> Credential | absent` returns the current
credential without side effects. -/
def getToken (s : TokenStore) : Option String := s

/-- Modelled from the spec: `set(credential)` replaces the current credential
unconditionally. -/
def setToken (_s : TokenStore) (t : String) : TokenStore := some t

/-- Modelled from the spec: `clear()` removes the current credential;
clearing when absent is a no-op, not an error. -/
def clearToken (_s : TokenStore) : TokenStore := none

/-- Modelled from the spec: `authHeaders` yields the headers carrying the
stored credential — `Authorization: Bearer <token>` when a credential is
present (spec §6), and no header otherwise. -/
def authHeaders (s : TokenStore) : HeaderMap :=
  match s with
  | some t => [("Authorization", "Bearer " ++ t)]
  | none => []

/-- The body of an outbound request: JSON-encoded text or multipart form
fields (a `FormData` of name/value pairs). -/
inductive Body where
  | text (s : String)
  | form (fields : List (String × String))
deriving DecidableEq, Repr

/-- The `RequestInit` options object passed to `fetch`: method, headers,
optional body, and any further request options a caller may set. -/
structure RequestInit where
  method : Option String := none
  headers : HeaderMap := []
  body : Option Body := none
  otherOptions : List (String × String) := []
deriving DecidableEq, Repr

/-- An HTTP response: status, headers, raw body bytes, and whether the body
stream has been consumed. `fetch` delivers responses with an unconsumed body. -/
structure Response where
  status : Nat
  headers : HeaderMap := []
  bodyBytes : List Nat := []
  bodyConsumed : Bool := false
deriving DecidableEq, Repr

/-- JS `||` on a possibly-unset string configuration value: an unset or empty
value falls back to the default. -/
def jsOrDefault (v : Option String) (d : String) : String :=
  match v with
  | some s => if s = "" then d else s
  | none => d

/-- `export const API = process.env.NEXT_PUBLIC_API_URL || "http://localhost:10000"`
(api module). The environment value is passed explicitly. -/
def API (env : Option String) : String := jsOrDefault env "http://localhost:10000"

/-- `const DEFAULT_API = process.env.NEXT_PUBLIC_API_URL || "http://localhost:8000"`
(`src/web/src/app/page.tsx`, line 41). -/
def DEFAULT_API (env : Option String) : String := jsOrDefault env "http://localhost:8000"

/-- `const API = process.env.NEXT_PUBLIC_API_URL || "http://localhost:10000"`
(register page, local constant). -/
def REGISTER_API (env : Option String) : String := jsOrDefault env "http://localhost:10000"

/-- The request `apiFetch` hands to `fetch`: the URL `API + path` and
`\x7b...init, headers\x7d` where `headers = \x7b...authHeaders(), ...(init.headers || \x7b\x7d)\x7d`. -/
def apiFetchRequest (env : Option String) (store : TokenStore) (path : String)
    (init : RequestInit) : String × RequestInit :=
  let headers := objSpread (authHeaders (getToken store)) init.headers
  (API env ++ path, { init with headers := headers })

/-- The token store after `apiFetch` observes response `r`:
`if (r.status === 401) clearToken()`. -/
def apiFetchStoreAfter (store : TokenStore) (r : Response) : TokenStore :=
  if r.status = 401 then clearToken store else store

/-- `apiFetch(path, init)`: build the merged headers, dispatch to
`API + path` via the transport, clear the token store iff the status is 401,
and return the response unchanged. The transport (`fetch`) is a parameter;
the store is passed and returned explicitly. -/
def apiFetch (env : Option String) (transport : String → RequestInit → Response)
    (store : TokenStore) (path : String) (init : RequestInit) :
    TokenStore × Response :=
  let req := apiFetchRequest env store path init
  let r := transport req.1 req.2
  (apiFetchStoreAfter store r, r)

/-- The request `postMultipart` (case page, `src/unnamed/part_002`) hands
directly to `fetch`: URL `API + endpoint`, method POST, headers
`\x7b...authHeaders()\x7d`, body the `FormData` with file, role, use_case, case_id. -/
def postMultipartRequest (env : Option String) (store : TokenStore)
    (endpoint : String) (file role useCase caseId : String) :
    String × RequestInit :=
  let fd : List (String × String) :=
    [("file", file), ("role", role), ("use_case", useCase), ("case_id", caseId)]
  (API env ++ endpoint,
    { method := some "POST",
      headers := objSpread [] (authHeaders (getToken store)),
      body := some (Body.form fd) })

/-- The token store after `postMultipart` observes a response: the function
never touches the store (it throws on `!r.ok` and otherwise reads the body,
but calls neither `clearToken` nor `setToken`). -/
def postMultipartStoreAfter (store : TokenStore) (_r : Response) : TokenStore :=
  store

/-- The registration response as `onSubmit` (register page,
`src/unnamed/part_000`) consumes it: the `ok` flag, the body text (read when
`!ok`), and the `token` field of the JSON-parsed body (read when `ok`). -/
structure RegisterResponse where
  ok : Bool
  bodyText : String
  tokenField : String
deriving DecidableEq, Repr

/-- The store update and error message of the register page's `onSubmit`:
on `!r.ok` it throws the body text, caught as the error message, leaving the
store untouched; on `r.ok` it stores the body's token field and sets no
error. -/
def onSubmit (store : TokenStore) (r : RegisterResponse) :
    TokenStore × Option String :=
  if r.ok then (setToken store r.tokenField, none)
  else (store, some r.bodyText)

lemma lookup_append (l₁ l₂ : List (String × String)) (k : String) :
    List.lookup k (l₁ ++ l₂) = optOr (List.lookup k l₁) (List.lookup k l₂) := by
  induction l₁ with
  | nil => simp [optOr]
  | cons p t ih =>
    rcases p with ⟨k₀, v₀⟩
    by_cases h : k = k₀
    · simp [List.lookup, h, optOr]
    · have hb : (k == k₀) = false := beq_false_of_ne h
      simp [List.lookup, hb, ih]

lemma jsGet_objSpread (a b : HeaderMap) (k : String) :
    jsGet (objSpread a b) k = optOr (jsGet b k) (jsGet a k) := by
  simp [jsGet, objSpread, List.reverse_append, lookup_append]

/-- C1: for every stored credential `T`, if `apiFetch` receives a response
with status 401, the credential is evicted from the token store: a subsequent
`get()` returns absent, regardless of `T`'s value. -/
theorem C1_evict_on_401 (env : Option String)
    (transport : String → RequestInit → Response) (T : String)
    (path : String) (init : RequestInit)
    (h : (apiFetch env transport (some T) path init).2.status = 401) :
    getToken (apiFetch env transport (some T) path init).1 = none := by
  simp only [apiFetch] at h ⊢
  simp [apiFetchStoreAfter, h, clearToken, getToken]

theorem C1_evict_on_401_witness :
    (apiFetch none (fun _ _ => { status := 401 }) (some "abc123") "/cases"
        {}).2.status = 401 ∧
    getToken (apiFetch none (fun _ _ => { status := 401 }) (some "abc123")
        "/cases" {}).1 = none :=
  ⟨rfl, C1_evict_on_401 none (fun _ _ => { status := 401 }) "abc123" "/cases"
    {} rfl⟩

/-- C2: when the caller-supplied headers contain no authorization entry, the
outbound request built by `apiFetch` carries an authorization header iff a
credential is stored; the header equals the bearer-formatted credential when
one is stored, and is absent otherwise. -/
theorem C2_header_injection (env : Option String) (store : TokenStore)
    (path : String) (init : RequestInit)
    (hno : jsGet init.headers "Authorization" = none) :
    jsGet (apiFetchRequest env store path init).2.headers "Authorization"
      = (getToken store).map (fun T => "Bearer " ++ T) := by
  simp only [apiFetchRequest]
  rw [jsGet_objSpread, hno]
  cases store <;> simp [optOr, jsGet, authHeaders, getToken, List.lookup]

theorem C2_header_injection_witness :
    jsGet ({} : RequestInit).headers "Authorization" = none ∧
    jsGet (apiFetchRequest none (some "abc123") "/cases" {}).2.headers
        "Authorization"
      = (getToken (some "abc123")).map (fun T => "Bearer " ++ T) :=
  ⟨rfl, C2_header_injection none (some "abc123") "/cases" {} rfl⟩

/-- C3: caller-supplied headers are layered on top of the injected
authorization header: every header name the caller supplies keeps the
caller's value in the outgoing header set (for a name present in both, the
caller wins; caller headers not named authorization pass through unchanged). -/
theorem C3_caller_headers_win (env : Option String) (store : TokenStore)
    (path : String) (init : RequestInit) (k v : String)
    (h : jsGet init.headers k = some v) :
    jsGet (apiFetchRequest env store path init).2.headers k = some v := by
  simp only [apiFetchRequest]
  rw [jsGet_objSpread, h]
  rfl

theorem C3_caller_headers_win_witness :
    jsGet [("Authorization", "custom"), ("X-Extra", "1")] "Authorization"
      = some "custom" ∧
    jsGet (apiFetchRequest none (some "abc123") "/cases"
        { headers := [("Authorization", "custom"), ("X-Extra", "1")] }).2.headers
        "Authorization" = some "custom" :=
  ⟨rfl, C3_caller_headers_win none (some "abc123") "/cases"
    { headers := [("Authorization", "custom"), ("X-Extra", "1")] }
    "Authorization" "custom" rfl⟩

/-- C4: for every stored credential `T`, a response with any status other
than 401 leaves the token store unchanged: a subsequent `get()` still
returns `T`. -/
theorem C4_no_evict_on_other_status (env : Option String)
    (transport : String → RequestInit → Response) (T : String)
    (path : String) (init : RequestInit)
    (h : (apiFetch env transport (some T) path init).2.status ≠ 401) :
    getToken (apiFetch env transport (some T) path init).1 = some T := by
  simp only [apiFetch] at h ⊢
  simp [apiFetchStoreAfter, h, getToken]

theorem C4_no_evict_on_other_status_witness :
    (apiFetch none (fun _ _ => { status := 500 }) (some "abc123") "/cases"
        {}).2.status ≠ 401 ∧
    getToken (apiFetch none (fun _ _ => { status := 500 }) (some "abc123")
        "/cases" {}).1 = some "abc123" :=
  ⟨by decide, C4_no_evict_on_other_status none (fun _ _ => { status := 500 })
    "abc123" "/cases" {} (by decide)⟩

/-- C5: `apiFetch` returns the transport's response object unchanged — same
status, headers, and body, with the body stream as (un)consumed as the
transport delivered it, and no throwing on non-2xx — and its token-store
side effect factors through the status code alone: the store update is
unchanged when everything but the status of the response is replaced. -/
theorem C5_response_passthrough (env : Option String)
    (transport : String → RequestInit → Response) (store : TokenStore)
    (path : String) (init : RequestInit) :
    (apiFetch env transport store path init).2
      = transport (apiFetchRequest env store path init).1
          (apiFetchRequest env store path init).2 ∧
    ∀ r : Response,
      apiFetchStoreAfter store r = apiFetchStoreAfter store { status := r.status } :=
  ⟨rfl, fun _ => rfl⟩

/-- C6 counterexample: `postMultipart` on the case page issues an
authenticated outbound request (it carries the bearer credential) without
going through `apiFetch`, and the evict-on-401 protocol does not apply to
it: after a 401 response its token store still holds the credential, whereas
the dispatcher would have evicted it. -/
theorem C6_counterexample :
    jsGet (postMultipartRequest none (some "abc123") "/analyze" "photo.jpg"
        "All Evidence" "General verification" "case-1").2.headers
        "Authorization" = some "Bearer abc123" ∧
    getToken (postMultipartStoreAfter (some "abc123") { status := 401 })
      = some "abc123" ∧
    getToken (apiFetch none (fun _ _ => { status := 401 }) (some "abc123")
        "/analyze" {}).1 = none :=
  ⟨rfl, rfl, rfl⟩

/-- C6 amended: requests routed through `apiFetch` get the attach-token,
detect-expiry, evict-on-401 protocol, but not every authenticated request is
routed through it — the case page's `postMultipart` re-implements token
attachment by spreading `authHeaders()` into a direct `fetch` call, and a
401 on such a request never evicts the stored credential. -/
theorem C6_dispatcher_bypassed (env : Option String) (store : TokenStore)
    (T : String) (endpoint file role useCase caseId : String) (r : Response)
    (hT : store = some T) :
    jsGet (postMultipartRequest env store endpoint file role useCase
        caseId).2.headers "Authorization" = some ("Bearer " ++ T) ∧
    getToken (postMultipartStoreAfter store r) = some T := by
  subst hT
  constructor
  · simp [postMultipartRequest, jsGet, objSpread, authHeaders, getToken,
      List.lookup]
  · rfl

theorem C6_dispatcher_bypassed_witness :
    (some "abc123" : TokenStore) = some "abc123" ∧
    jsGet (postMultipartRequest none (some "abc123") "/report" "clip.mp4"
        "All Evidence" "General verification" "case-2").2.headers
        "Authorization" = some ("Bearer " ++ "abc123") ∧
    getToken (postMultipartStoreAfter (some "abc123") { status := 401 })
      = some "abc123" :=
  ⟨rfl, C6_dispatcher_bypassed none (some "abc123") "abc123" "/report"
    "clip.mp4" "All Evidence" "General verification" "case-2"
    { status := 401 } rfl⟩

/-- C7 counterexample: the client does not fall back to one local
development address — with the configuration value unset, the dispatcher's
base address is `http://localhost:10000` while the quick-scan page's is
`http://localhost:8000`, two different origins. -/
theorem C7_counterexample :
    API none = "http://localhost:10000" ∧
    DEFAULT_API none = "http://localhost:8000" ∧
    API none ≠ DEFAULT_API none :=
  ⟨rfl, rfl, by decide⟩

/-- C7 amended: the dispatcher sends every request to its base address
concatenated with the path, and when the external configuration value is set
(nonempty) that one origin is shared by the dispatcher, the quick-scan page,
and the register page; but when it is unset the defaults differ per module:
`http://localhost:10000` for the dispatcher and register page versus
`http://localhost:8000` for the quick-scan page. -/
theorem C7_base_address (env : Option String) (store : TokenStore)
    (path : String) (init : RequestInit) :
    (apiFetchRequest env store path init).1 = API env ++ path ∧
    (∀ s : String, s ≠ "" →
      API (some s) = s ∧ DEFAULT_API (some s) = s ∧ REGISTER_API (some s) = s) ∧
    API none = "http://localhost:10000" ∧
    REGISTER_API none = "http://localhost:10000" ∧
    DEFAULT_API none = "http://localhost:8000" := by
  refine ⟨rfl, ?_, rfl, rfl, rfl⟩
  intro s hs
  simp [API, DEFAULT_API, REGISTER_API, jsOrDefault, hs]

theorem C7_base_address_witness :
    ("https://api.example.com" : String) ≠ "" ∧
    (apiFetchRequest (some "https://api.example.com") (some "abc123") "/cases"
        {}).1 = API (some "https://api.example.com") ++ "/cases" ∧
    API (some "https://api.example.com") = "https://api.example.com" :=
  ⟨by decide,
    (C7_base_address (some "https://api.example.com") (some "abc123") "/cases"
      {}).1,
    ((C7_base_address (some "https://api.example.com") (some "abc123") "/cases"
      {}).2.1 "https://api.example.com" (by decide)).1⟩

/-- C8: clearing the token store when no credential is stored does not fail
and leaves the store absent, and `clear()` is idempotent: clearing twice
leaves the same absent state as clearing once. -/
theorem C8_clear_idempotent :
    clearToken (none : TokenStore) = none ∧
    (∀ s : TokenStore, getToken (clearToken s) = none ∧
      clearToken (clearToken s) = clearToken s) :=
  ⟨rfl, fun _ => ⟨rfl, rfl⟩⟩

/-- C9: `apiFetch` forwards every field of the caller's options other than
the headers (method, body, and any other request option) unchanged to the
transport; only the headers field is replaced by the merged header set. -/
theorem C9_options_forwarded (env : Option String) (store : TokenStore)
    (path : String) (init : RequestInit) :
    (apiFetchRequest env store path init).2.method = init.method ∧
    (apiFetchRequest env store path init).2.body = init.body ∧
    (apiFetchRequest env store path init).2.otherOptions = init.otherOptions ∧
    (apiFetchRequest env store path init).2.headers
      = objSpread (authHeaders (getToken store)) init.headers :=
  ⟨rfl, rfl, rfl, rfl⟩

/-- C10: the registration flow stores a credential only on success — when
the response is not ok, the store is unchanged and the error message shown
is the response's body text; when it is ok, the exact token field of the
parsed body is stored and no error is shown. -/
theorem C10_register_stores_only_on_success (store : TokenStore)
    (r : RegisterResponse) :
    (r.ok = false →
      (onSubmit store r).1 = store ∧ (onSubmit store r).2 = some r.bodyText) ∧
    (r.ok = true →
      getToken (onSubmit store r).1 = some r.tokenField ∧
      (onSubmit store r).2 = none) := by
  cases hr : r.ok <;>
    simp [onSubmit, hr, setToken, getToken]

theorem C10_register_stores_only_on_success_witness :
    ({ ok := false, bodyText := "taken", tokenField := "" }
        : RegisterResponse).ok = false ∧
    (onSubmit (some "old")
        { ok := false, bodyText := "taken", tokenField := "" }).1
      = some "old" ∧
    ({ ok := true, bodyText := "", tokenField := "tok-9" }
        : RegisterResponse).ok = true ∧
    getToken (onSubmit none
        { ok := true, bodyText := "", tokenField := "tok-9" }).1
      = some "tok-9" :=
  ⟨rfl,
    ((C10_register_stores_only_on_success (some "old")
      { ok := false, bodyText := "taken", tokenField := "" }).1 rfl).1,
    rfl,
    ((C10_register_stores_only_on_success none
      { ok := true, bodyText := "", tokenField := "tok-9" }).2 rfl).1⟩
